import Mathlib

/-!
Verification of the expressJobly repository's core logic: the
`sqlForPartialUpdate` column-mapping helper (helpers/sql.js), the inline
filter/query builders of `Company.findAll` and `Job.findAll`, and the
storage-facing operations `create`, `get` and `update` of the Company and
Job models.  JavaScript values that flow through these functions are
modelled explicitly: strings and numbers as `JSVal`, optional request
parameters as `Option`, and JavaScript truthiness as `truthyStr` /
`truthyNum`.  Errors thrown by the code are modelled by `SqlError`,
including the `ReferenceError` raised when strict-mode code evaluates an
identifier that was never defined.
-/

/-- A JavaScript value appearing in query parameter lists and update
payloads: either a string or a number. -/
inductive JSVal where
  | str (s : String)
  | num (n : Int)
deriving DecidableEq, Repr

/-- Errors surfaced by the model layer.  `badRequest` models
`BadRequestError`, `notFound` models `NotFoundError`, and
`referenceError` models the JavaScript `ReferenceError` raised when an
undefined identifier is evaluated in strict mode. -/
inductive SqlError where
  | badRequest (msg : String)
  | notFound (msg : String)
  | referenceError (ident : String)
deriving DecidableEq, Repr

/-- JavaScript truthiness of an optional string parameter: absent
(`undefined`) and the empty string are falsy. -/
def truthyStr : Option String → Bool
  | none => false
  | some s => !(s == "")

/-- JavaScript truthiness of an optional numeric parameter: absent
(`undefined`) and 0 are falsy. -/
def truthyNum : Option Int → Bool
  | none => false
  | some n => !(n == 0)

/-- JavaScript property lookup `m[k]` on an object modelled as an
association list in property insertion order. -/
def jsLookup (m : List (String × String)) (k : String) : Option String :=
  (m.find? (fun p => p.1 == k)).map Prod.snd

/-- The column-name translation `jsToSql[colName] || colName` from
helpers/sql.js: use the translated name, falling back to the key itself
when the lookup is `undefined` (or otherwise falsy, i.e. the empty
string). -/
def colNameFor (jsToSql : List (String × String)) (colName : String) : String :=
  match jsLookup jsToSql colName with
  | none => colName
  | some s => if s == "" then colName else s

/-- The local `cols` array of `sqlForPartialUpdate`:
`keys.map((colName, idx) => ...)` producing one assignment fragment
`"<column>"=$<idx+1>` per key, in key enumeration order. -/
def partialUpdateCols (keys : List String) (jsToSql : List (String × String)) : List String :=
  keys.enum.map (fun p => "\"" ++ colNameFor jsToSql p.2 ++ "\"=$" ++ toString (p.1 + 1))

/-- The result object of `sqlForPartialUpdate`: the joined `SET` text and
the ordered parameter values. -/
structure SetClause where
  setCols : String
  values : List JSVal
deriving DecidableEq, Repr

/-- `sqlForPartialUpdate(dataToUpdate, jsToSql)` from helpers/sql.js.
`dataToUpdate` is the update object as an association list in property
enumeration order (JavaScript objects enumerate string keys in insertion
order, and `Object.keys` / `Object.values` agree on that order).  Throws
`BadRequestError("No data")` when there are no keys; otherwise returns
the comma-joined assignment fragments and the values in the same
order. -/
def sqlForPartialUpdate (dataToUpdate : List (String × JSVal))
    (jsToSql : List (String × String)) : Except SqlError SetClause :=
  let keys := dataToUpdate.map Prod.fst
  if keys.length = 0 then
    .error (.badRequest "No data")
  else
    .ok ⟨String.intercalate ", " (partialUpdateCols keys jsToSql),
         dataToUpdate.map Prod.snd⟩

/-- A built query: the SQL text and the ordered positional parameter
values, as handed to `db.query(query, values)`. -/
structure BuiltQuery where
  query : String
  values : List JSVal
deriving DecidableEq, Repr

/-- The base SELECT text of `Company.findAll` (the template literal,
with its leading/trailing whitespace). -/
def companyBaseQuery : String :=
  "\n      SELECT handle,\n             name,\n             description,\n             num_employees AS \"numEmployees\",\n             logo_url AS \"logoUrl\"\n      FROM companies\n    "

/-- The query-building part of `Company.findAll({ name, minEmployees,
maxEmployees })`.  Each source `if` both appends to `query` and pushes to
`values`; here the two effects of one condition are written as two `if`s
with the same condition.  A present `name` always becomes the first
clause (`WHERE ... $1`); the numeric filters use `WHERE ... $1` when
`values` is still empty and otherwise `AND ... $<values.length+1>`. -/
def companyFindAllQuery (name : Option String) (minEmployees maxEmployees : Option Int) :
    BuiltQuery :=
  let q0 := companyBaseQuery
  let v0 : List JSVal := []
  let q1 := if truthyStr name then q0 ++ " WHERE name ILIKE $1" else q0
  let v1 := if truthyStr name then v0 ++ [JSVal.str ("%" ++ name.getD "" ++ "%")] else v0
  let q2 := if truthyNum minEmployees then
      q1 ++ (if v1.length = 0 then " WHERE num_employees >= $1"
             else " AND num_employees >= $" ++ toString (v1.length + 1))
    else q1
  let v2 := if truthyNum minEmployees then v1 ++ [JSVal.num (minEmployees.getD 0)] else v1
  let q3 := if truthyNum maxEmployees then
      q2 ++ (if v2.length = 0 then " WHERE num_employees <= $1"
             else " AND num_employees <= $" ++ toString (v2.length + 1))
    else q2
  let v3 := if truthyNum maxEmployees then v2 ++ [JSVal.num (maxEmployees.getD 0)] else v2
  ⟨q3, v3⟩

/-- The base SELECT text of `Job.findAll`. -/
def jobBaseQuery : String :=
  "\n      SELECT id,\n             title,\n             salary,\n             equity,\n             company_handle AS \"companyHandle\"\n      FROM jobs\n    "

/-- The query-building part of `Job.findAll({ title, minSalary,
hasEquity })`.  `title` and `minSalary` behave like the company filters;
the `hasEquity` branch fires whenever the parameter is defined at all
(`hasEquity !== undefined`, i.e. `isSome`, including `false`) and appends
`equity > 0` without pushing any value. -/
def jobFindAllQuery (title : Option String) (minSalary : Option Int) (hasEquity : Option Bool) :
    BuiltQuery :=
  let q0 := jobBaseQuery
  let v0 : List JSVal := []
  let q1 := if truthyStr title then q0 ++ " WHERE title ILIKE $1" else q0
  let v1 := if truthyStr title then v0 ++ [JSVal.str ("%" ++ title.getD "" ++ "%")] else v0
  let q2 := if truthyNum minSalary then
      q1 ++ (if v1.length = 0 then " WHERE salary >= $1"
             else " AND salary >= $" ++ toString (v1.length + 1))
    else q1
  let v2 := if truthyNum minSalary then v1 ++ [JSVal.num (minSalary.getD 0)] else v1
  let q3 := if hasEquity.isSome then
      q2 ++ (if v2.length = 0 then " WHERE equity > 0" else " AND equity > 0")
    else q2
  ⟨q3, v2⟩

/-- Whether the pattern is a prefix of the text (on character lists). -/
def startsWithPat : List Char → List Char → Bool
  | [], _ => true
  | _ :: _, [] => false
  | p :: ps, t :: ts => p == t && startsWithPat ps ts

/-- Number of (possibly overlapping) occurrences of a pattern in a text,
both as character lists.  Used to count `WHERE` and `AND` tokens in a
built query string. -/
def countOcc (pat : List Char) : List Char → Nat
  | [] => 0
  | t :: ts => (if startsWithPat pat (t :: ts) then 1 else 0) + countOcc pat ts

/-- Number of company filters that are present (truthy), mirroring the
three branch conditions of `Company.findAll`. -/
def companyFilterCount (name : Option String) (minEmployees maxEmployees : Option Int) : Nat :=
  (if truthyStr name then 1 else 0) + (if truthyNum minEmployees then 1 else 0) +
    (if truthyNum maxEmployees then 1 else 0)

/-- Number of job filters that are present, mirroring the three branch
conditions of `Job.findAll` (`hasEquity` is present when defined). -/
def jobFilterCount (title : Option String) (minSalary : Option Int) (hasEquity : Option Bool) : Nat :=
  (if truthyStr title then 1 else 0) + (if truthyNum minSalary then 1 else 0) +
    (if hasEquity.isSome then 1 else 0)

/-- A stored row of the `companies` table. -/
structure CompanyRow where
  handle : String
  name : String
  description : String
  numEmployees : Int
  logoUrl : String
deriving DecidableEq, Repr

/-- A stored row of the `jobs` table.  `id` is the generated serial key;
`equity` is the decimal-as-string the driver returns for NUMERIC. -/
structure JobRow where
  id : Nat
  title : String
  salary : Int
  equity : String
  companyHandle : String
deriving DecidableEq, Repr

/-- The relational state the two models operate on, together with the
sequence value feeding the generated `jobs.id`. -/
structure Storage where
  companies : List CompanyRow
  jobs : List JobRow
  nextJobId : Nat
deriving DecidableEq, Repr

/-- One row of the LEFT JOIN in `Company.get`: the company columns plus
the four selected job columns, which are NULL (`none`) on the padding
row produced when the company has no jobs. -/
structure CompanyJobRow where
  handle : String
  name : String
  description : String
  numEmployees : Int
  logoUrl : String
  job_id : Option Nat
  job_title : Option String
  job_salary : Option Int
  job_equity : Option String
deriving DecidableEq, Repr

/-- One entry of the `jobs` array `Company.get` builds from each joined
row (`row.job_id` etc.; every field is `none` on a padding row). -/
structure JobEntry where
  id : Option Nat
  title : Option String
  salary : Option Int
  equity : Option String
deriving DecidableEq, Repr

/-- The object `Company.get` resolves with: the company columns plus the
`jobs` array. -/
structure CompanyGetResult where
  handle : String
  name : String
  description : String
  numEmployees : Int
  logoUrl : String
  jobs : List JobEntry
deriving DecidableEq, Repr

/-- The row set of the `Company.get` query: companies matching the
handle, LEFT JOINed with their jobs on `c.handle = j.company_handle`; a
company with no matching job yields a single row with NULL job
columns. -/
def companyGetRows (st : Storage) (handle : String) : List CompanyJobRow :=
  (st.companies.filter (fun c => c.handle == handle)).flatMap (fun c =>
    let js := st.jobs.filter (fun j => j.companyHandle == c.handle)
    if js.isEmpty then
      [⟨c.handle, c.name, c.description, c.numEmployees, c.logoUrl, none, none, none, none⟩]
    else
      js.map (fun j => ⟨c.handle, c.name, c.description, c.numEmployees, c.logoUrl,
        some j.id, some j.title, some j.salary, some j.equity⟩))

/-- `Company.get(handle)`: takes `rows[0]` (NotFound when absent), maps
EVERY returned row - including a NULL padding row - to a `jobs` entry,
and attaches that array to the company object. -/
def companyGet (st : Storage) (handle : String) : Except SqlError CompanyGetResult :=
  let rows := companyGetRows st handle
  match rows.head? with
  | none => .error (.notFound ("No company: " ++ handle))
  | some r =>
      .ok ⟨r.handle, r.name, r.description, r.numEmployees, r.logoUrl,
        rows.map (fun row => ⟨row.job_id, row.job_title, row.job_salary, row.job_equity⟩)⟩

/-- `Company.create`: duplicate check `SELECT handle FROM companies WHERE
handle = $1` (BadRequest when a row comes back), then INSERT returning
the new row. -/
def companyCreate (st : Storage) (handle name description : String)
    (numEmployees : Int) (logoUrl : String) : Storage × Except SqlError CompanyRow :=
  match (st.companies.filter (fun r => r.handle == handle)).head? with
  | some _ => (st, .error (.badRequest ("Duplicate company: " ++ handle)))
  | none =>
      let row : CompanyRow := ⟨handle, name, description, numEmployees, logoUrl⟩
      ({st with companies := st.companies ++ [row]}, .ok row)

/-- `Job.create`: duplicate check `SELECT title FROM jobs WHERE title =
$1` (BadRequest when a row comes back), then INSERT returning the new
row with a generated id. -/
def jobCreate (st : Storage) (title : String) (salary : Int) (equity : String)
    (company_handle : String) : Storage × Except SqlError JobRow :=
  match (st.jobs.filter (fun r => r.title == title)).head? with
  | some _ => (st, .error (.badRequest ("Duplicate job: " ++ title)))
  | none =>
      let row : JobRow := ⟨st.nextJobId, title, salary, equity, company_handle⟩
      ({st with jobs := st.jobs ++ [row], nextJobId := st.nextJobId + 1}, .ok row)

/-- The `jsToSql` translation object `Company.update` passes to
`sqlForPartialUpdate`. -/
def companyJsToSql : List (String × String) :=
  [("numEmployees", "num_employees"), ("logoUrl", "logo_url")]

/-- The `jsToSql` translation object `Job.update` passes to
`sqlForPartialUpdate`. -/
def jobJsToSql : List (String × String) :=
  [("title", "title"), ("salary", "salary"), ("equity", "equity"),
   ("companyHandle", "company_handle")]

/-- The update payload with its keys translated to physical column
names, pairing each translated column with its new value (column i of
`setCols` is bound to value i). -/
def translatedPairs (data : List (String × JSVal)) (jsToSql : List (String × String)) :
    List (String × JSVal) :=
  data.map (fun p => (colNameFor jsToSql p.1, p.2))

/-- SQL semantics of one `SET` assignment on a companies row: the four
updatable physical columns change the corresponding field; anything else
leaves the row as is (the models never generate other columns). -/
def setCompanyField (r : CompanyRow) : String × JSVal → CompanyRow
  | ("name", .str s) => {r with name := s}
  | ("description", .str s) => {r with description := s}
  | ("num_employees", .num n) => {r with numEmployees := n}
  | ("logo_url", .str s) => {r with logoUrl := s}
  | _ => r

/-- SQL semantics of one `SET` assignment on a jobs row. -/
def setJobField (r : JobRow) : String × JSVal → JobRow
  | ("title", .str s) => {r with title := s}
  | ("salary", .num n) => {r with salary := n}
  | ("equity", .str s) => {r with equity := s}
  | ("company_handle", .str s) => {r with companyHandle := s}
  | _ => r

/-- `Company.update(handle, data)`: builds the SET clause with
`sqlForPartialUpdate` (propagating its BadRequest on empty data), runs
`UPDATE companies SET ... WHERE handle = $n RETURNING ...` - rows whose
handle matches get every assignment applied, everything else is
untouched - and throws NotFound when the update returned no row. -/
def companyUpdate (st : Storage) (handle : String) (data : List (String × JSVal)) :
    Storage × Except SqlError CompanyRow :=
  match sqlForPartialUpdate data companyJsToSql with
  | .error e => (st, .error e)
  | .ok _ =>
      let assigns := translatedPairs data companyJsToSql
      let newCompanies := st.companies.map (fun r =>
        if r.handle == handle then assigns.foldl setCompanyField r else r)
      let st2 : Storage := {st with companies := newCompanies}
      match (newCompanies.filter (fun r => r.handle == handle)).head? with
      | none => (st2, .error (.notFound ("No company: " ++ handle)))
      | some row => (st2, .ok row)

/-- `Job.update(id, data)`: same shape as `Company.update`, except that
the not-found branch evaluates `NotFoundError(`No job: ...`)` whose
template literal reads the identifier `handle`, which is defined nowhere
in job.js - so strict-mode JavaScript raises `ReferenceError: handle is
not defined` before any NotFoundError is constructed. -/
def jobUpdate (st : Storage) (id : Nat) (data : List (String × JSVal)) :
    Storage × Except SqlError JobRow :=
  match sqlForPartialUpdate data jobJsToSql with
  | .error e => (st, .error e)
  | .ok _ =>
      let assigns := translatedPairs data jobJsToSql
      let newJobs := st.jobs.map (fun r =>
        if r.id == id then assigns.foldl setJobField r else r)
      let st2 : Storage := {st with jobs := newJobs}
      match (newJobs.filter (fun r => r.id == id)).head? with
      | none => (st2, .error (.referenceError "handle"))
      | some row => (st2, .ok row)

/-- Claim C5: for the empty field mapping, `sqlForPartialUpdate` fails
with the BadRequest ("invalid input") error `"No data"` rather than
returning a result, whatever the column-name translation is. -/
theorem sqlForPartialUpdate_empty_badRequest (jsToSql : List (String × String)) :
    sqlForPartialUpdate [] jsToSql = .error (.badRequest "No data") := rfl

/-- Claim C7: for the mapping a=1, b=2 with the single translation b to "bee",
the assignment fragments are `"a"=$1` and `"bee"=$2` (the untranslated
key `a` falls back to its own name), the values are 1 and 2, and the
returned object joins the fragments with a comma. -/
theorem sqlForPartialUpdate_example :
    partialUpdateCols ["a", "b"] [("b", "bee")] = ["\"a\"=$1", "\"bee\"=$2"] ∧
    sqlForPartialUpdate [("a", JSVal.num 1), ("b", JSVal.num 2)] [("b", "bee")] =
      .ok ⟨"\"a\"=$1, \"bee\"=$2", [JSVal.num 1, JSVal.num 2]⟩ := by
  constructor <;> rfl

/-- Claim C2 (counterexample): in `Job.findAll` with exactly two filters
present - the title filter and the has-equity flag - the parameter value
list has length 1, not 2: the `equity > 0` clause pushes no value. -/
theorem jobFindAll_two_filters_param_shortfall :
    jobFilterCount (some "x") none (some true) = 2 ∧
    (jobFindAllQuery (some "x") none (some true)).values.length ≠ 2 ∧
    (jobFindAllQuery (some "x") none (some true)).values.length = 1 := by
  decide

/-- Claim C3: `Company.get` on a company with no jobs does NOT return an
empty `jobs` list.  The LEFT JOIN pads the row set with one all-NULL job
row, and the code maps every returned row into a jobs entry, so the
result carries the single placeholder entry with all fields null.  When
jobs exist, the list does match the associated job rows. -/
theorem companyGet_left_join_placeholder :
    companyGet ⟨[⟨"c1", "CompOne", "desc", 3, "logo"⟩], [], 0⟩ "c1" =
      .ok ⟨"c1", "CompOne", "desc", 3, "logo", [⟨none, none, none, none⟩]⟩ ∧
    ([(⟨none, none, none, none⟩ : JobEntry)] ≠ ([] : List JobEntry)) ∧
    companyGet ⟨[⟨"c1", "CompOne", "desc", 3, "logo"⟩],
        [⟨7, "eng", 100, "0.1", "c1"⟩, ⟨8, "ops", 90, "0", "c1"⟩], 9⟩ "c1" =
      .ok ⟨"c1", "CompOne", "desc", 3, "logo",
        [⟨some 7, some "eng", some 100, some "0.1"⟩,
         ⟨some 8, some "ops", some 90, some "0"⟩]⟩ := by
  refine ⟨rfl, by decide, rfl⟩

/-- Claim C4: updating a key that is not in storage leaves storage
unchanged in both models, and `Company.update` fails with NotFound as
claimed - but `Job.update` raises `ReferenceError: handle is not
defined` instead of a NotFound error, because its not-found branch
interpolates the undefined identifier `handle` into the error
message. -/
theorem jobUpdate_missing_reference_error :
    jobUpdate ⟨[], [⟨5, "t", 1, "0", "c"⟩], 6⟩ 1 [("title", JSVal.str "x")] =
      (⟨[], [⟨5, "t", 1, "0", "c"⟩], 6⟩, .error (.referenceError "handle")) ∧
    companyUpdate ⟨[⟨"c1", "n", "d", 1, "l"⟩], [], 0⟩ "nope" [("name", JSVal.str "x")] =
      (⟨[⟨"c1", "n", "d", 1, "l"⟩], [], 0⟩, .error (.notFound "No company: nope")) := by
  refine ⟨rfl, rfl⟩

/-- Claim C6: `create` on a natural key that already exists - a company
with the same handle, a job with the same title - fails with the
Duplicate BadRequest error and returns the storage unchanged, with no
insert performed. -/
theorem create_duplicate_rejected (st : Storage) (handle nm desc : String) (ne : Int)
    (lu : String) (title : String) (sal : Int) (eqy ch : String) :
    ((∃ r ∈ st.companies, r.handle = handle) →
      companyCreate st handle nm desc ne lu =
        (st, .error (.badRequest ("Duplicate company: " ++ handle)))) ∧
    ((∃ j ∈ st.jobs, j.title = title) →
      jobCreate st title sal eqy ch =
        (st, .error (.badRequest ("Duplicate job: " ++ title)))) := by
  constructor
  · rintro ⟨r, hr, hh⟩
    have hmem : r ∈ st.companies.filter (fun q => q.handle == handle) :=
      List.mem_filter.mpr ⟨hr, by simp [hh]⟩
    unfold companyCreate
    cases hf : st.companies.filter (fun q => q.handle == handle) with
    | nil => rw [hf] at hmem; cases hmem
    | cons a as => rfl
  · rintro ⟨j, hj, ht⟩
    have hmem : j ∈ st.jobs.filter (fun q => q.title == title) :=
      List.mem_filter.mpr ⟨hj, by simp [ht]⟩
    unfold jobCreate
    cases hf : st.jobs.filter (fun q => q.title == title) with
    | nil => rw [hf] at hmem; cases hmem
    | cons a as => rfl

/-- Storage holding one company `c1` and one job titled `t1`, used to
witness the duplicate-create rejection. -/
def dupStorage : Storage :=
  ⟨[⟨"c1", "n", "d", 1, "l"⟩], [⟨1, "t1", 5, "0", "c1"⟩], 2⟩

/-- Claim C6 (witness): the duplicate-create rejection at a concrete
storage that already holds company `c1` and job `t1`. -/
theorem create_duplicate_rejected_witness :
    companyCreate dupStorage "c1" "x" "y" 0 "z" =
      (dupStorage, .error (.badRequest ("Duplicate company: " ++ "c1"))) ∧
    jobCreate dupStorage "t1" 0 "0" "c1" =
      (dupStorage, .error (.badRequest ("Duplicate job: " ++ "t1"))) :=
  ⟨(create_duplicate_rejected dupStorage "c1" "x" "y" 0 "z" "t1" 0 "0" "c1").1 (by decide),
   (create_duplicate_rejected dupStorage "c1" "x" "y" 0 "z" "t1" 0 "0" "c1").2 (by decide)⟩

/-- Claim C1: for every non-empty field mapping, `sqlForPartialUpdate`
succeeds; the list of column-assignment fragments has exactly as many
entries as the returned value list; the i-th fragment carries position
i+1 (so the positions are the contiguous sequence starting at 1, ending
each fragment); and the i-th value is the i-th input field's value, in
input enumeration order. -/
theorem sqlForPartialUpdate_shape (data : List (String × JSVal))
    (jsToSql : List (String × String)) (h : data ≠ []) :
    sqlForPartialUpdate data jsToSql =
      .ok ⟨String.intercalate ", " (partialUpdateCols (data.map Prod.fst) jsToSql),
           data.map Prod.snd⟩ ∧
    (partialUpdateCols (data.map Prod.fst) jsToSql).length = (data.map Prod.snd).length ∧
    ∀ i (hc : i < (partialUpdateCols (data.map Prod.fst) jsToSql).length)
      (hv : i < (data.map Prod.snd).length) (hd : i < data.length),
      List.IsSuffix ("$" ++ toString (i + 1)).data
          ((partialUpdateCols (data.map Prod.fst) jsToSql).get ⟨i, hc⟩).data ∧
      (data.map Prod.snd).get ⟨i, hv⟩ = (data.get ⟨i, hd⟩).2 := by
  have hlen : ¬ ((data.map Prod.fst).length = 0) := by
    simp [List.length_eq_zero, h]
  refine ⟨?_, ?_, ?_⟩
  · simp only [sqlForPartialUpdate, hlen, if_false]
  · simp [partialUpdateCols, List.enum_length]
  · intro i hc hv hd
    constructor
    · simp only [partialUpdateCols] at hc ⊢
      simp only [List.get_eq_getElem, List.getElem_map, List.getElem_enum]
      refine ⟨("\"" ++ colNameFor jsToSql ((data.map Prod.fst).get ⟨i, by simpa using hd⟩) ++
        "\"=").data, ?_⟩
      have e2 : ("\"=" : String).data = ['"', '='] := rfl
      have e3 : ("\"=$" : String).data = ['"', '=', '$'] := rfl
      have e4 : ("$" : String).data = ['$'] := rfl
      simp [String.data_append, e2, e3, e4, List.get_eq_getElem]
    · simp [List.get_eq_getElem, List.getElem_map]

/-- Claim C1 (witness): the shape theorem applied to the one-field
mapping a=1 with the empty translation object. -/
theorem sqlForPartialUpdate_shape_witness :
    ([(("a" : String), JSVal.num 1)] ≠ ([] : List (String × JSVal))) ∧
    sqlForPartialUpdate [("a", JSVal.num 1)] [] =
      .ok ⟨String.intercalate ", "
             (partialUpdateCols ([(("a" : String), JSVal.num 1)].map Prod.fst) []),
           [(("a" : String), JSVal.num 1)].map Prod.snd⟩ :=
  ⟨by decide, (sqlForPartialUpdate_shape [("a", JSVal.num 1)] [] (by decide)).1⟩


set_option maxRecDepth 10000

/-- The keyword `WHERE` as a character pattern. -/
def wherePat : List Char := "WHERE".data

/-- The keyword `AND` as a character pattern. -/
def andPat : List Char := "AND".data

/-- The company name-filter operator fragment. -/
def nameIlikePat : List Char := "name ILIKE".data

/-- The minimum-employees operator fragment. -/
def minEmployeesPat : List Char := "num_employees >=".data

/-- The maximum-employees operator fragment. -/
def maxEmployeesPat : List Char := "num_employees <=".data

/-- The job title-filter operator fragment. -/
def titleIlikePat : List Char := "title ILIKE".data

/-- The minimum-salary operator fragment. -/
def minSalaryPat : List Char := "salary >=".data

/-- The equity presence-check fragment. -/
def equityPat : List Char := "equity > 0".data

/-- Claim C2 (amended): with no filters present neither builder emits a
`WHERE`; with exactly two filters present each builder emits exactly one
`WHERE` and one `AND`; the parameter list then has length 2 for
`Company.findAll`, while for `Job.findAll` it has length 2 minus one
when the has-equity flag is one of the two filters, since that clause
contributes no parameter. -/
theorem filter_clause_counts (name : Option String) (minE maxE : Option Int)
    (title : Option String) (minS : Option Int) (hasEq : Option Bool) :
    (companyFilterCount name minE maxE = 0 →
      countOcc wherePat (companyFindAllQuery name minE maxE).query.data = 0) ∧
    (companyFilterCount name minE maxE = 2 →
      countOcc wherePat (companyFindAllQuery name minE maxE).query.data = 1 ∧
      countOcc andPat (companyFindAllQuery name minE maxE).query.data = 1 ∧
      (companyFindAllQuery name minE maxE).values.length = 2) ∧
    (jobFilterCount title minS hasEq = 0 →
      countOcc wherePat (jobFindAllQuery title minS hasEq).query.data = 0) ∧
    (jobFilterCount title minS hasEq = 2 →
      countOcc wherePat (jobFindAllQuery title minS hasEq).query.data = 1 ∧
      countOcc andPat (jobFindAllQuery title minS hasEq).query.data = 1 ∧
      (jobFindAllQuery title minS hasEq).values.length =
        2 - (if hasEq.isSome then 1 else 0)) := by
  refine ⟨?_, ?_, ?_, ?_⟩
  · intro h0
    cases h1 : truthyStr name <;> cases h2 : truthyNum minE <;> cases h3 : truthyNum maxE <;>
      simp [companyFilterCount, h1, h2, h3] at h0 <;>
      simp [companyFindAllQuery, h1, h2, h3] <;> decide
  · intro h0
    cases h1 : truthyStr name <;> cases h2 : truthyNum minE <;> cases h3 : truthyNum maxE <;>
      simp [companyFilterCount, h1, h2, h3] at h0 <;>
      simp [companyFindAllQuery, h1, h2, h3] <;> decide
  · intro h0
    cases h1 : truthyStr title <;> cases h2 : truthyNum minS <;> cases h3 : hasEq <;>
      simp [jobFilterCount, h1, h2, h3] at h0 <;>
      simp [jobFindAllQuery, h1, h2, h3] <;> decide
  · intro h0
    cases h1 : truthyStr title <;> cases h2 : truthyNum minS <;> cases h3 : hasEq <;>
      simp [jobFilterCount, h1, h2, h3] at h0 <;>
      simp [jobFindAllQuery, h1, h2, h3] <;> decide

/-- Claim C2 (witness): the clause-count theorem at concrete inputs -
no filters, and the two-filter combinations name+minEmployees and
title+hasEquity. -/
theorem filter_clause_counts_witness :
    countOcc wherePat (companyFindAllQuery none none none).query.data = 0 ∧
    countOcc wherePat (companyFindAllQuery (some "x") (some 5) none).query.data = 1 ∧
    countOcc andPat (companyFindAllQuery (some "x") (some 5) none).query.data = 1 ∧
    (companyFindAllQuery (some "x") (some 5) none).values.length = 2 ∧
    countOcc wherePat (jobFindAllQuery none none none).query.data = 0 ∧
    countOcc wherePat (jobFindAllQuery (some "x") none (some true)).query.data = 1 ∧
    countOcc andPat (jobFindAllQuery (some "x") none (some true)).query.data = 1 ∧
    (jobFindAllQuery (some "x") none (some true)).values.length =
      2 - (if (some true : Option Bool).isSome then 1 else 0) := by
  have h0 := filter_clause_counts none none none none none none
  have h2 := filter_clause_counts (some "x") (some 5) none (some "x") none (some true)
  have hc2 := h2.2.1 (by decide)
  have hj2 := h2.2.2.2 (by decide)
  exact ⟨h0.1 (by decide), hc2.1, hc2.2.1, hc2.2.2, h0.2.2.1 (by decide),
    hj2.1, hj2.2.1, hj2.2.2⟩

/-- Claim C8: every present filter uses its fixed comparison operator in
the produced query: `ILIKE` against a %-wrapped pattern for name and
title (case-insensitive substring match, the wrapped pattern being the
clause's bound value), `>=` for minEmployees and minSalary, `<=` for
maxEmployees, and the `equity > 0` presence check for the has-equity
flag. -/
theorem findAll_operators_fixed (name : Option String) (minE maxE : Option Int)
    (title : Option String) (minS : Option Int) (hasEq : Option Bool) :
    (truthyStr name = true →
      1 ≤ countOcc nameIlikePat (companyFindAllQuery name minE maxE).query.data ∧
      (companyFindAllQuery name minE maxE).values.head? =
        some (JSVal.str ("%" ++ name.getD "" ++ "%"))) ∧
    (truthyNum minE = true →
      1 ≤ countOcc minEmployeesPat (companyFindAllQuery name minE maxE).query.data) ∧
    (truthyNum maxE = true →
      1 ≤ countOcc maxEmployeesPat (companyFindAllQuery name minE maxE).query.data) ∧
    (truthyStr title = true →
      1 ≤ countOcc titleIlikePat (jobFindAllQuery title minS hasEq).query.data ∧
      (jobFindAllQuery title minS hasEq).values.head? =
        some (JSVal.str ("%" ++ title.getD "" ++ "%"))) ∧
    (truthyNum minS = true →
      1 ≤ countOcc minSalaryPat (jobFindAllQuery title minS hasEq).query.data) ∧
    (hasEq.isSome = true →
      1 ≤ countOcc equityPat (jobFindAllQuery title minS hasEq).query.data) := by
  refine ⟨?_, ?_, ?_, ?_, ?_, ?_⟩
  · intro hp
    cases h2 : truthyNum minE <;> cases h3 : truthyNum maxE <;>
      simp [companyFindAllQuery, hp, h2, h3] <;> decide
  · intro hp
    cases h1 : truthyStr name <;> cases h3 : truthyNum maxE <;>
      simp [companyFindAllQuery, hp, h1, h3] <;> decide
  · intro hp
    cases h1 : truthyStr name <;> cases h2 : truthyNum minE <;>
      simp [companyFindAllQuery, hp, h1, h2] <;> decide
  · intro hp
    cases h2 : truthyNum minS <;> cases h3 : hasEq <;>
      simp [jobFindAllQuery, hp, h2, h3] <;> decide
  · intro hp
    cases h1 : truthyStr title <;> cases h3 : hasEq <;>
      simp [jobFindAllQuery, hp, h1, h3] <;> decide
  · intro hp
    cases h1 : truthyStr title <;> cases h2 : truthyNum minS <;>
      simp [jobFindAllQuery, hp, h1, h2] <;> decide

/-- Claim C8 (witness): the fixed-operator theorem with every filter
present at concrete inputs. -/
theorem findAll_operators_fixed_witness :
    (1 ≤ countOcc nameIlikePat (companyFindAllQuery (some "x") (some 1) (some 2)).query.data ∧
      (companyFindAllQuery (some "x") (some 1) (some 2)).values.head? =
        some (JSVal.str ("%" ++ (some "x").getD "" ++ "%"))) ∧
    1 ≤ countOcc minEmployeesPat (companyFindAllQuery (some "x") (some 1) (some 2)).query.data ∧
    1 ≤ countOcc maxEmployeesPat (companyFindAllQuery (some "x") (some 1) (some 2)).query.data ∧
    (1 ≤ countOcc titleIlikePat (jobFindAllQuery (some "t") (some 3) (some false)).query.data ∧
      (jobFindAllQuery (some "t") (some 3) (some false)).values.head? =
        some (JSVal.str ("%" ++ (some "t").getD "" ++ "%"))) ∧
    1 ≤ countOcc minSalaryPat (jobFindAllQuery (some "t") (some 3) (some false)).query.data ∧
    1 ≤ countOcc equityPat (jobFindAllQuery (some "t") (some 3) (some false)).query.data := by
  have h := findAll_operators_fixed (some "x") (some 1) (some 2) (some "t") (some 3) (some false)
  exact ⟨h.1 (by decide), h.2.1 (by decide), h.2.2.1 (by decide), h.2.2.2.1 (by decide),
    h.2.2.2.2.1 (by decide), h.2.2.2.2.2 (by decide)⟩

/-- Claim C9: a filter supplied with a falsy value - the empty string
for name or title, 0 for minEmployees, maxEmployees or minSalary - is
treated exactly like an absent filter: the built query and parameter
list are identical to the ones built with the filter absent. -/
theorem falsy_filters_like_absent (name : Option String) (minE maxE : Option Int)
    (title : Option String) (minS : Option Int) (hasEq : Option Bool) :
    companyFindAllQuery (some "") minE maxE = companyFindAllQuery none minE maxE ∧
    companyFindAllQuery name (some 0) maxE = companyFindAllQuery name none maxE ∧
    companyFindAllQuery name minE (some 0) = companyFindAllQuery name minE none ∧
    jobFindAllQuery (some "") minS hasEq = jobFindAllQuery none minS hasEq ∧
    jobFindAllQuery title (some 0) hasEq = jobFindAllQuery title none hasEq := by
  refine ⟨?_, ?_, ?_, ?_, ?_⟩ <;> rfl

/-- Claim C10: `Job.findAll` appends the `equity > 0` clause whenever
`hasEquity` is any defined value: with `hasEquity = false` the built
query equals the one built with `hasEquity = true`, the parameter list
equals the one built with `hasEquity` absent (the clause binds no
parameter), and the clause is present in the query text. -/
theorem jobFindAll_hasEquity_any_defined (title : Option String) (minS : Option Int) (b : Bool) :
    jobFindAllQuery title minS (some b) = jobFindAllQuery title minS (some true) ∧
    (jobFindAllQuery title minS (some b)).values = (jobFindAllQuery title minS none).values ∧
    1 ≤ countOcc equityPat (jobFindAllQuery title minS (some b)).query.data := by
  refine ⟨rfl, rfl, ?_⟩
  cases h1 : truthyStr title <;> cases h2 : truthyNum minS <;>
    simp [jobFindAllQuery, h1, h2] <;> decide
